import Mathlib

/-!
Shallow embedding of `src/examples/rent_machine.py` (vast-node repository):
a single-run rental workflow that searches marketplace offers, selects the
first (cheapest) offer, provisions an instance on it, polls the instance
status until it is running or an attempt budget is exhausted, and prints
operator-facing cleanup guidance on every exit path.

External HTTP interactions (search response, the PUT issued by
`create_instance`, each `get_instance` fetch) are parameters of the
embedding: the marketplace API is an external collaborator.  Everything the
script itself computes — the `MockArgs` attribute-resolution fallback, the
payload construction of `create_instance`, the control flow, prints, sleeps
and the `try/except` handler of `rent_machine` — is translated faithfully.

Python runtime values that the script stores and tests for truthiness are
modelled by `PyVal`; Python exceptions by `PyErr`; each `print` statement by
a structured `Msg` event carrying exactly the dynamic data interpolated into
the corresponding f-string (static text lines are `Msg.text` of the line).
-/

/-- A Python runtime value as used by the script: string, int, bool or None. -/
inductive PyVal where
  | vstr (s : String)
  | vnum (n : Nat)
  | vbool (b : Bool)
  | vnone
  deriving DecidableEq, Repr

/-- Python truthiness of a `PyVal` (`if x:` / `if not x:`). -/
def pyTruthy : PyVal → Bool
  | .vstr s => !(s == "")
  | .vnum n => !(n == 0)
  | .vbool b => b
  | .vnone => false

/-- Truthiness of `dict.get` results: `None` (absent) is falsy. -/
def pyTruthyOpt : Option PyVal → Bool
  | none => false
  | some v => pyTruthy v

/-- A Python exception, as raised by the script or by the HTTP layer:
`AttributeError` from `MockArgs.__getattr__`, an HTTP error raised by
`raise_for_status`, or a plain `Exception(msg)` raised by `rent_machine`. -/
inductive PyErr where
  | attrError (name : String)
  | httpError (msg : String)
  | exception (msg : String)
  deriving DecidableEq, Repr

/-- One element of the `offers` list of the search response.  `id` is read
with `selected_machine['id']`; the other fields with `.get` and a default. -/
structure Offer where
  id : Nat
  dph_total : Option String
  gpu_name : Option String
  num_gpus : Option Nat
  deriving DecidableEq, Repr

/-- The JSON body of the search response; `offers` read with
`search_results.get('offers', [])`. -/
structure SearchResp where
  offers : Option (List Offer)
  deriving DecidableEq, Repr

/-- The JSON body returned by the instance-creation PUT:
`new_contract` (the instance id) and `error` are both read with `.get`. -/
structure CreateResp where
  new_contract : Option PyVal
  error : Option String
  deriving DecidableEq, Repr

/-- The JSON body returned by `get_instance`; all fields read with `.get`
and the defaults used at the call sites of `rent_machine`. -/
structure InstStatus where
  actual_status : Option String
  ssh_host : Option String
  ssh_port : Option Nat
  jupyter_url : Option String
  deriving DecidableEq, Repr

/-- One `print` of the script, carrying the dynamic data of its f-string. -/
inductive Msg where
  | text (s : String)
  | foundMachines (n : Nat)
  | selectedMachine (id : Nat)
  | gpuInfo (name : String) (count : Nat)
  | priceInfo (p : String)
  | creatingPayload (blob : List (String × PyVal))
  | instanceCreated (id : PyVal)
  | checkingStatus (attempt total : Nat)
  | currentStatus (s : String)
  | connectionInfo (port : Nat) (host : String)
  | jupyterInfo (url : String)
  | manualCleanup (id : PyVal)
  | errorMsg (e : PyErr)
  | cleanupAdvisory (id : PyVal)
  deriving DecidableEq, Repr

/-- An observable effect of one run: a print, an HTTP interaction, or a
sleep (`sleep(ms)` = `time.sleep(ms / 1000.0)`). -/
inductive Ev where
  | print (m : Msg)
  | httpSearch
  | httpPut (offerId : Nat)
  | fetchStatus (id : PyVal)
  | sleepMs (ms : Nat)
  deriving DecidableEq, Repr

/-- The hard-coded API key of the script. -/
def API_KEY : String :=
  "43866bfbb34e8c810d58987bad96ea6bde3e5d0f29def48337462b4e4d4d94c3"

/-- `config["instance_config"]` of the script, as a key/value list. -/
def instance_config : List (String × PyVal) :=
  [("image", .vstr "pytorch/pytorch:2.0.0-cuda11.7-cudnn8-runtime"),
   ("disk", .vnum 10),
   ("jupyter", .vstr "true"),
   ("env", .vstr "JUPYTER_PASSWORD=vastai-demo,DEMO_VAR=\"Hello from VAST.ai!\""),
   ("onstart_cmd", .vstr "echo \"Container is running! Current time: $(date)\" >> /vast/welcome.log")]

/-- The attributes set on a `MockArgs` object by `MockArgs.__init__`
(with the default constructor arguments used by `rent_machine`). -/
def mockArgsInit : List (String × PyVal) :=
  [("api_key", .vstr API_KEY),
   ("server_url", .vstr "https://console.vast.ai"),
   ("retry", .vnum 3),
   ("curl", .vbool false),
   ("raw", .vbool false),
   ("explain", .vbool false),
   ("onstart", .vnone),
   ("entrypoint", .vnone),
   ("login", .vnone),
   ("python_utf8", .vbool false),
   ("lang_utf8", .vbool false),
   ("jupyter_lab", .vbool false),
   ("jupyter_dir", .vnone),
   ("force", .vbool false),
   ("cancel_unavail", .vbool false),
   ("template_hash", .vnone),
   ("user", .vnone),
   ("args", .vnone),
   ("bid_price", .vnone)]

/-- `MockArgs.__getattr__`: called only when normal lookup fails; returns
`config["instance_config"][name]` when present, else raises AttributeError. -/
def mockArgsGetattrFallback (name : String) : Except PyErr PyVal :=
  match instance_config.lookup name with
  | some v => .ok v
  | none => .error (.attrError name)

/-- Attribute access `args.name` on the `MockArgs` object built by
`rent_machine`: instance attributes set in `__init__` first, then the
`__getattr__` fallback. -/
def mockArgsAttr (name : String) : Except PyErr PyVal :=
  match mockArgsInit.lookup name with
  | some v => .ok v
  | none => mockArgsGetattrFallback name

/-- The `json_blob` literal of `create_instance`: each payload key paired
with the `args` attribute it reads, in source order (Python evaluates dict
values left to right, so the first failing attribute access aborts). -/
def jsonBlobFields : List (String × String) :=
  [("image", "image"),
   ("env", "env"),
   ("price", "bid_price"),
   ("disk", "disk"),
   ("label", "label"),
   ("extra", "extra"),
   ("onstart", "onstart_cmd"),
   ("image_login", "login"),
   ("python_utf8", "python_utf8"),
   ("lang_utf8", "lang_utf8"),
   ("use_jupyter_lab", "jupyter_lab"),
   ("jupyter_dir", "jupyter_dir"),
   ("force", "force"),
   ("cancel_unavail", "cancel_unavail"),
   ("template_hash_id", "template_hash"),
   ("user", "user")]

/-- Resolve a list of payload fields against the `MockArgs` object, left to
right, propagating the first raised `AttributeError`. -/
def resolveFields : List (String × String) → Except PyErr (List (String × PyVal))
  | [] => .ok []
  | (k, a) :: rest => do
      let v ← mockArgsAttr a
      let tl ← resolveFields rest
      .ok ((k, v) :: tl)

/-- `create_instance(args, offer_id)`: builds `json_blob` (evaluating the
attribute accesses in dict-literal order), adds `machine_id`, prints the
payload and issues the HTTP PUT.  The PUT together with its
`raise_for_status()` and `.json()` is external; its outcome is the
parameter `putResult`.  Returns the effects performed and the result. -/
def create_instance (putResult : Except PyErr CreateResp) (offer_id : Nat) :
    List Ev × Except PyErr CreateResp :=
  match resolveFields jsonBlobFields with
  | .error e => ([], .error e)
  | .ok fields =>
      let json_blob := (("client_id", PyVal.vstr "me") :: fields)
        ++ [("machine_id", PyVal.vnum offer_id)]
      ([.print (.creatingPayload json_blob), .httpPut offer_id], putResult)

/-- `get_instance(args, instance_id)` is a single HTTP GET followed by
`raise_for_status()` and `.json()`: entirely an external read.  In the
polling loop it is re-issued once per attempt; a run supplies the outcome
of the k-th fetch (1-based) as `poll k`. -/
def get_instance (poll : Nat → Except PyErr InstStatus) (attempt : Nat) :
    Except PyErr InstStatus :=
  poll attempt

/-- The prints of the `status == 'running'` branch of the monitoring loop
(step 6: connection information). -/
def connectionPrints (instance_status : InstStatus) : List Ev :=
  let ssh_host := instance_status.ssh_host.getD "unknown"
  let ssh_port := instance_status.ssh_port.getD 0
  [.print (.text "6. Instance is now running!"),
   .print (.text "Connection Information:"),
   .print (.connectionInfo ssh_port ssh_host)]
  ++ (match instance_status.jupyter_url with
      | some u => [Ev.print (.jupyterInfo u)]
      | none => [])
  ++ [.print (.text "Your instance is now ready to use!"),
      .print (.text "It will continue running and incurring charges until you stop it."),
      .print (.text "To stop and delete this instance, uncomment the cleanup code below.")]

/-- The `while not is_running and attempts < max_attempts` loop of
`rent_machine` (STEP 5).  `attempts` is the loop counter; the fuel argument
is `max_attempts - attempts`, so `fuel = 0` is exactly the exit condition
`attempts < max_attempts` failing.  Returns the effects performed, the
final `is_running`, and the exception (if one propagated out of the loop
body — `get_instance` is the only raising statement inside). -/
def pollLoop (poll : Nat → Except PyErr InstStatus) (iid : PyVal)
    (max_attempts : Nat) : Nat → Nat → List Ev × Bool × Option PyErr
  | _, 0 => ([], false, none)
  | attempts, fuel + 1 =>
      let att := attempts + 1
      let evs : List Ev := [.print (.checkingStatus att max_attempts), .fetchStatus iid]
      match get_instance poll att with
      | .error e => (evs, false, some e)
      | .ok instance_status =>
          let status := instance_status.actual_status.getD "unknown"
          let evs := evs ++ [.print (.currentStatus status)]
          if status = "running" then
            (evs ++ connectionPrints instance_status, true, none)
          else
            let evs := evs ++
              [.print (.text "Instance not ready yet. Waiting 15 seconds..."),
               .sleepMs 15000]
            let tail := pollLoop poll iid max_attempts att fuel
            (evs ++ tail.1, tail.2.1, tail.2.2)

/-- `max_attempts = 20` of the monitoring loop. -/
def max_attempts : Nat := 20

/-- The result of one run of `rent_machine`: the effect trace, the final
value of the `instance_id` variable, and the exception caught by the
top-level `except` handler (none on normal completion). -/
structure RunResult where
  events : List Ev
  instance_id : Option PyVal
  err : Option PyErr
  deriving DecidableEq, Repr

/-- The body of the `try:` block of `rent_machine`, from the banner through
step 7.  `searchResult` is the outcome of the search GET (with
`raise_for_status` and `.json()`); `provision` is the `create_instance`
call (effects plus result) as a function of `machine_id`; `poll` gives the
outcome of the k-th status fetch.  Returns the effects, the value of
`instance_id` at exit, and the exception that aborts the block, if any. -/
def rentMachineBody (searchResult : Except PyErr SearchResp)
    (provision : Nat → List Ev × Except PyErr CreateResp)
    (poll : Nat → Except PyErr InstStatus) :
    List Ev × Option PyVal × Option PyErr :=
  let evs : List Ev :=
    [.print (.text "VAST.ai Machine Rental Example (Python)"),
     .print (.text "======================================"),
     .print (.text "1. Searching for available machines..."),
     .httpSearch]
  match searchResult with
  | .error e => (evs, none, some e)
  | .ok search_results =>
      let offers := search_results.offers.getD []
      match offers with
      | [] => (evs, none, some (.exception "No suitable machines found matching criteria"))
      | selected_machine :: _ =>
          let machine_id := selected_machine.id
          let price := selected_machine.dph_total.getD "unknown"
          let gpu_name := selected_machine.gpu_name.getD "Unknown GPU"
          let gpu_count := selected_machine.num_gpus.getD 1
          let evs := evs ++
            [.print (.foundMachines offers.length),
             .print (.selectedMachine machine_id),
             .print (.gpuInfo gpu_name gpu_count),
             .print (.priceInfo price),
             .print (.text "3. Creating instance on selected machine...")]
          let pr := provision machine_id
          let evs := evs ++ pr.1
          match pr.2 with
          | .error e => (evs, none, some e)
          | .ok instance_creation_result =>
              let instance_id := instance_creation_result.new_contract
              if pyTruthyOpt instance_id = false then
                (evs, instance_id,
                 some (.exception ("Failed to create instance: "
                   ++ instance_creation_result.error.getD "Unknown error")))
              else
                match instance_id with
                | none => (evs, none, some (.exception "unreachable"))
                | some v =>
                    let evs := evs ++
                      [.print (.instanceCreated v),
                       .print (.text "4. Starting the instance..."),
                       .print (.text "5. Monitoring instance status...")]
                    let lp := pollLoop poll v max_attempts 0 max_attempts
                    let evs := evs ++ lp.1
                    let is_running := lp.2.1
                    match lp.2.2 with
                    | some e => (evs, some v, some e)
                    | none =>
                        let evs := if is_running then evs else evs ++
                          [.print (.text "The instance failed to reach running status after multiple attempts."),
                           .print (.text "You may need to check the VAST.ai console for more information.")]
                        let evs := evs ++
                          [.print (.text "7. Manual Cleanup Instructions:"),
                           .print (.text "When you are finished with this instance, clean it up with:"),
                           .print (.manualCleanup v)]
                        (evs, some v, none)

/-- `rent_machine()`: the `try:` body followed by the `except Exception`
handler, which prints the error and, when `instance_id` is truthy, the
cleanup advisory naming it.  The handler swallows the exception, so the
coroutine always returns normally. -/
def rent_machine (searchResult : Except PyErr SearchResp)
    (provision : Nat → List Ev × Except PyErr CreateResp)
    (poll : Nat → Except PyErr InstStatus) : RunResult :=
  match rentMachineBody searchResult provision poll with
  | (evs, iid, none) => ⟨evs, iid, none⟩
  | (evs, iid, some e) =>
      let evs := evs ++ [.print (.errorMsg e)]
      let evs :=
        match iid with
        | some v =>
            if pyTruthy v then
              evs ++ [.print (.text "Cleanup Instructions:"), .print (.cleanupAdvisory v)]
            else evs
        | none => evs
      ⟨evs, iid, some e⟩

/-- `rent_machine` as the script actually runs it: the provisioning step is
the real `create_instance` applied to the `MockArgs` object. -/
def rent_machine_actual (searchResult : Except PyErr SearchResp)
    (putResult : Except PyErr CreateResp)
    (poll : Nat → Except PyErr InstStatus) : RunResult :=
  rent_machine searchResult (create_instance putResult) poll

/-- The `__main__` block: `asyncio.run(rent_machine())`.  Since the
top-level `except Exception` handler of `rent_machine` catches every
exception of the body, the coroutine never raises, and the interpreter
exits with status 0 on every run.  Returns (exit status, run result). -/
def scriptMain (searchResult : Except PyErr SearchResp)
    (provision : Nat → List Ev × Except PyErr CreateResp)
    (poll : Nat → Except PyErr InstStatus) : Nat × RunResult :=
  (0, rent_machine searchResult provision poll)

/-- Number of `sleep` calls in a trace. -/
def countSleeps (l : List Ev) : Nat :=
  l.countP fun e => match e with | .sleepMs _ => true | _ => false

/-- Number of status fetches (`get_instance` calls) in a trace. -/
def countFetches (l : List Ev) : Nat :=
  l.countP fun e => match e with | .fetchStatus _ => true | _ => false

/-- Number of instance-creation PUT requests in a trace. -/
def countPuts (l : List Ev) : Nat :=
  l.countP fun e => match e with | .httpPut _ => true | _ => false

/-- The trace reports instance id `v` in operator-facing cleanup guidance:
either the step-7 manual-cleanup instructions or the error-path advisory. -/
def advisoryMentions (v : PyVal) (l : List Ev) : Prop :=
  Ev.print (.manualCleanup v) ∈ l ∨ Ev.print (.cleanupAdvisory v) ∈ l

instance (v : PyVal) (l : List Ev) : Decidable (advisoryMentions v l) := by
  unfold advisoryMentions; infer_instance

/-- The k-th status fetch succeeds with a status other than "running"
(after the `.get('actual_status', 'unknown')` default). -/
def okNotRunning : Except PyErr InstStatus → Bool
  | .ok st => !(st.actual_status.getD "unknown" == "running")
  | .error _ => false

/-- Number of connection-information prints (step 6) in a trace. -/
def countConnInfo (l : List Ev) : Nat :=
  l.countP fun e => match e with | .print (.connectionInfo _ _) => true | _ => false

/-- The effects of `rent_machine` from the banner through the step-3
announcement, on a run whose search succeeded with a non-empty offers
list headed by `sel`. -/
def headerEvs (offers : List Offer) (sel : Offer) : List Ev :=
  [.print (.text "VAST.ai Machine Rental Example (Python)"),
   .print (.text "======================================"),
   .print (.text "1. Searching for available machines..."),
   .httpSearch,
   .print (.foundMachines offers.length),
   .print (.selectedMachine sel.id),
   .print (.gpuInfo (sel.gpu_name.getD "Unknown GPU") (sel.num_gpus.getD 1)),
   .print (.priceInfo (sel.dph_total.getD "unknown")),
   .print (.text "3. Creating instance on selected machine...")]

/-- A provisioning call as `rent_machine` would observe it if
`create_instance` reached its HTTP request: one PUT to the selected offer,
then the marketplace response `res`.  Used to examine the orchestrator
logic downstream of provisioning, which the AttributeError in the real
`create_instance` (see `create_instance_never_reaches_put`) makes
unreachable in the shipped script. -/
def mockProvision (res : Except PyErr CreateResp) :
    Nat → List Ev × Except PyErr CreateResp :=
  fun oid => ([Ev.httpPut oid], res)

/-- The offers list of the end-to-end scenario of the spec (§8):
two offers, ids 10 and 11, prices 0.10 and 0.20. -/
def scenarioOffers : List Offer :=
  [⟨10, some "0.10", none, none⟩, ⟨11, some "0.20", none, none⟩]

/-- The poll oracle of the end-to-end scenario: first three fetches return
status "provisioning", the fourth returns "running" with ssh host "h" and
ssh port 22. -/
def scenarioPoll : Nat → Except PyErr InstStatus := fun k =>
  if k ≤ 3 then .ok ⟨some "provisioning", none, none, none⟩
  else .ok ⟨some "running", some "h", some 22, none⟩

/-- A poll oracle that always answers with status "provisioning"
(the instance never becomes ready). -/
def neverRunningPoll : Nat → Except PyErr InstStatus :=
  fun _ => .ok ⟨some "provisioning", none, none, none⟩

/-- A poll oracle whose every fetch fails with a transient-looking HTTP
error (a 503 from the status endpoint). -/
def failingPoll : Nat → Except PyErr InstStatus :=
  fun _ => .error (.httpError "503 Service Unavailable")

/-- A one-offer search response (id 10), used as a minimal environment. -/
def oneOfferSearch : Except PyErr SearchResp :=
  .ok ⟨some [⟨10, none, none, none⟩]⟩

/-- A provisioning response whose `new_contract` is instance id 555. -/
def okCreate555 : Except PyErr CreateResp :=
  .ok ⟨some (.vnum 555), none⟩

/- ### Helper lemmas -/

/-- The `except` handler only appends to the effects of the `try:` body:
every effect of the body is in the final trace. -/
theorem mem_rent_machine_of_mem_body (searchResult provision poll) (x : Ev)
    (hx : x ∈ (rentMachineBody searchResult provision poll).1) :
    x ∈ (rent_machine searchResult provision poll).events := by
  rcases hb : rentMachineBody searchResult provision poll with ⟨evs, iid, err⟩
  rw [hb] at hx
  cases err with
  | none => simpa [rent_machine, hb] using hx
  | some e =>
      cases iid with
      | none =>
          simp [rent_machine, hb, List.mem_append]
          tauto
      | some v =>
          by_cases hv : pyTruthy v
          · simp [rent_machine, hb, hv, List.mem_append]
            tauto
          · simp [rent_machine, hb, hv, List.mem_append]
            tauto

/-- On a run whose search succeeds with a non-empty offers list, the body
trace contains every header effect and every effect of the provisioning
call on the first offer. -/
theorem mem_body_of_nonempty_search (sel : Offer) (rest : List Offer)
    (provision : Nat → List Ev × Except PyErr CreateResp)
    (poll : Nat → Except PyErr InstStatus) (x : Ev)
    (hx : x ∈ headerEvs (sel :: rest) sel ∨ x ∈ (provision sel.id).1) :
    x ∈ (rentMachineBody (.ok ⟨some (sel :: rest)⟩) provision poll).1 := by
  rcases hp : provision sel.id with ⟨pev, pres⟩
  rw [hp] at hx
  simp only [headerEvs, List.mem_cons, List.not_mem_nil, or_false] at hx
  cases pres with
  | error e =>
      simp [rentMachineBody, hp, List.mem_append]
      tauto
  | ok cres =>
      rcases hnc : cres.new_contract with _ | v
      · simp [rentMachineBody, hp, hnc, pyTruthyOpt, List.mem_append]
        tauto
      · by_cases hv : pyTruthy v
        · rcases hpl : pollLoop poll v max_attempts 0 max_attempts with ⟨levs, isr, lerr⟩
          cases lerr with
          | some e =>
              simp [rentMachineBody, hp, hnc, pyTruthyOpt, hv, hpl, List.mem_append]
              tauto
          | none =>
              cases isr
              · simp [rentMachineBody, hp, hnc, pyTruthyOpt, hv, hpl, List.mem_append]
                tauto
              · simp [rentMachineBody, hp, hnc, pyTruthyOpt, hv, hpl, List.mem_append]
                tauto
        · rw [Bool.not_eq_true] at hv
          simp [rentMachineBody, hp, hnc, pyTruthyOpt, hv, List.mem_append]
          tauto

/- ### Claim theorems -/

/-- C9: every call to `create_instance` with the `MockArgs` object built by
`rent_machine` raises `AttributeError` while building the request payload —
`args.label` is neither an attribute set in `MockArgs.__init__` nor a key
of `config["instance_config"]`, so `__getattr__` raises — and therefore
returns before printing the payload or issuing any HTTP request, whatever
the marketplace would have answered. -/
theorem create_instance_never_reaches_put (putResult : Except PyErr CreateResp)
    (offer_id : Nat) :
    create_instance putResult offer_id = ([], .error (.attrError "label"))
    ∧ mockArgsAttr "label" = .error (.attrError "label")
    ∧ countPuts (create_instance putResult offer_id).1 = 0 := by
  exact ⟨rfl, rfl, rfl⟩

/-- C2: on every search whose offers list is empty (key absent or `[]`),
the run raises the no-suitable-machines exception (the `NoOffersFound`
outcome of the spec), issues no instance-creation request, and the whole
run is independent of the provisioning collaborator. -/
theorem empty_search_short_circuits
    (prov prov2 : Nat → List Ev × Except PyErr CreateResp)
    (poll : Nat → Except PyErr InstStatus) :
    ((rent_machine (.ok ⟨some []⟩) prov poll).err
        = some (.exception "No suitable machines found matching criteria")
      ∧ countPuts (rent_machine (.ok ⟨some []⟩) prov poll).events = 0
      ∧ rent_machine (.ok ⟨some []⟩) prov poll = rent_machine (.ok ⟨some []⟩) prov2 poll)
    ∧ ((rent_machine (.ok ⟨none⟩) prov poll).err
        = some (.exception "No suitable machines found matching criteria")
      ∧ countPuts (rent_machine (.ok ⟨none⟩) prov poll).events = 0
      ∧ rent_machine (.ok ⟨none⟩) prov poll = rent_machine (.ok ⟨none⟩) prov2 poll) := by
  exact ⟨⟨rfl, rfl, rfl⟩, ⟨rfl, rfl, rfl⟩⟩

/-- C7 (code bug): in the end-to-end scenario of the spec — search returns
offers with ids 10 and 11, provisioning would answer instance id 555, the
first three polls report "provisioning" and the fourth "running" with ssh
host "h" and port 22 — the shipped code does NOT reach the Ready outcome:
`create_instance` raises `AttributeError("label")` before issuing the PUT,
so the run takes the error path with no instance and no connection info.
The same run with the provisioning call behaving as intended (one PUT,
response 555) does produce the instance and the connection info of the
claimed `Ready(555, "h", 22)` outcome. -/
theorem scenario_ready_blocked_by_label_bug :
    ((rent_machine_actual (.ok ⟨some scenarioOffers⟩) okCreate555 scenarioPoll).err
        = some (.attrError "label")
      ∧ (rent_machine_actual (.ok ⟨some scenarioOffers⟩) okCreate555 scenarioPoll).instance_id
        = none
      ∧ countPuts (rent_machine_actual (.ok ⟨some scenarioOffers⟩) okCreate555 scenarioPoll).events
        = 0
      ∧ countConnInfo (rent_machine_actual (.ok ⟨some scenarioOffers⟩) okCreate555 scenarioPoll).events
        = 0)
    ∧ ((rent_machine (.ok ⟨some scenarioOffers⟩) (mockProvision okCreate555) scenarioPoll).err
        = none
      ∧ (rent_machine (.ok ⟨some scenarioOffers⟩) (mockProvision okCreate555) scenarioPoll).instance_id
        = some (.vnum 555)
      ∧ Ev.print (.instanceCreated (.vnum 555))
        ∈ (rent_machine (.ok ⟨some scenarioOffers⟩) (mockProvision okCreate555) scenarioPoll).events
      ∧ Ev.print (.connectionInfo 22 "h")
        ∈ (rent_machine (.ok ⟨some scenarioOffers⟩) (mockProvision okCreate555) scenarioPoll).events
      ∧ countFetches (rent_machine (.ok ⟨some scenarioOffers⟩) (mockProvision okCreate555) scenarioPoll).events
        = 4) := by
  exact ⟨⟨rfl, rfl, rfl, rfl⟩, ⟨rfl, rfl, by decide, by decide, rfl⟩⟩

/-- When every status fetch in the window succeeds with a non-"running"
status, the monitoring loop runs its full fuel: one fetch and one sleep
per iteration (the sleep happens on every non-running iteration, the last
one included), ending not-running with no exception. -/
theorem pollLoop_never_running (poll : Nat → Except PyErr InstStatus) (iid : PyVal)
    (m : Nat) :
    ∀ fuel attempts,
      (∀ k, attempts < k → k ≤ attempts + fuel → okNotRunning (poll k) = true) →
      (pollLoop poll iid m attempts fuel).2.1 = false
      ∧ (pollLoop poll iid m attempts fuel).2.2 = none
      ∧ countFetches (pollLoop poll iid m attempts fuel).1 = fuel
      ∧ countSleeps (pollLoop poll iid m attempts fuel).1 = fuel := by
  intro fuel
  induction fuel with
  | zero => intro attempts _; exact ⟨rfl, rfl, rfl, rfl⟩
  | succ f ih =>
      intro attempts h
      have hcur : okNotRunning (poll (attempts + 1)) = true :=
        h (attempts + 1) (by omega) (by omega)
      rcases hst : poll (attempts + 1) with e | st
      · rw [hst] at hcur
        simp [okNotRunning] at hcur
      · rw [hst] at hcur
        have hnr : ¬ (st.actual_status.getD "unknown" = "running") := by
          simpa [okNotRunning] using hcur
        obtain ⟨ih1, ih2, ih3, ih4⟩ :=
          ih (attempts + 1) (fun k hk1 hk2 => h k (by omega) (by omega))
        refine ⟨?_, ?_, ?_, ?_⟩
        · simpa [pollLoop, get_instance, hst, hnr] using ih1
        · simpa [pollLoop, get_instance, hst, hnr] using ih2
        · simp only [pollLoop, get_instance, hst]
          simp [hnr, countFetches, List.countP_append, List.countP_cons] at ih3 ⊢
          omega
        · simp only [pollLoop, get_instance, hst]
          simp [hnr, countSleeps, List.countP_append, List.countP_cons] at ih4 ⊢
          omega

/-- Whatever the poll oracle answers, the monitoring loop never performs
more fetches or sleeps than its fuel. -/
theorem pollLoop_counts_le (poll : Nat → Except PyErr InstStatus) (iid : PyVal)
    (m : Nat) :
    ∀ fuel attempts,
      countFetches (pollLoop poll iid m attempts fuel).1 ≤ fuel
      ∧ countSleeps (pollLoop poll iid m attempts fuel).1 ≤ fuel := by
  intro fuel
  induction fuel with
  | zero => intro attempts; exact ⟨Nat.le_refl 0, Nat.le_refl 0⟩
  | succ f ih =>
      intro attempts
      obtain ⟨ih1, ih2⟩ := ih (attempts + 1)
      rcases hst : poll (attempts + 1) with e | st
      · constructor
        · simp [pollLoop, get_instance, hst, countFetches, List.countP_cons]
        · simp [pollLoop, get_instance, hst, countSleeps, List.countP_cons]
      · by_cases hr : st.actual_status.getD "unknown" = "running"
        · constructor
          · simp [pollLoop, get_instance, hst, hr, connectionPrints, countFetches,
              List.countP_cons, List.countP_append]
            cases st.jupyter_url <;> simp [List.countP_cons, List.countP_append]
          · simp [pollLoop, get_instance, hst, hr, connectionPrints, countSleeps,
              List.countP_cons, List.countP_append]
            cases st.jupyter_url <;> simp [List.countP_cons, List.countP_append]
        · constructor
          · simp [pollLoop, get_instance, hst, hr, countFetches,
              List.countP_cons, List.countP_append] at ih1 ⊢
            omega
          · simp [pollLoop, get_instance, hst, hr, countSleeps,
              List.countP_cons, List.countP_append] at ih2 ⊢
            omega

/-- If the first `j - 1` fetches come back non-running and the `j`-th fetch
raises, the loop stops at the `j`-th fetch: `j` fetches, `j - 1` sleeps,
and the exception propagates out of the loop. -/
theorem pollLoop_first_error (poll : Nat → Except PyErr InstStatus) (iid : PyVal)
    (m : Nat) (e : PyErr) :
    ∀ fuel j attempts, 1 ≤ j → j ≤ fuel →
      (∀ k, attempts < k → k < attempts + j → okNotRunning (poll k) = true) →
      poll (attempts + j) = .error e →
      (pollLoop poll iid m attempts fuel).2.1 = false
      ∧ (pollLoop poll iid m attempts fuel).2.2 = some e
      ∧ countFetches (pollLoop poll iid m attempts fuel).1 = j
      ∧ countSleeps (pollLoop poll iid m attempts fuel).1 = j - 1 := by
  intro fuel
  induction fuel with
  | zero => intro j attempts h1 h2 _ _; omega
  | succ f ih =>
      intro j attempts h1 h2 hok he
      rcases hj : j with _ | j'
      · omega
      · cases j' with
        | zero =>
            rw [hj] at he
            refine ⟨?_, ?_, ?_, ?_⟩
            · simp [pollLoop, get_instance, he]
            · simp [pollLoop, get_instance, he]
            · simp [pollLoop, get_instance, he, countFetches, List.countP_cons]
            · simp [pollLoop, get_instance, he, countSleeps, List.countP_cons]
        | succ j'' =>
            have hcur : okNotRunning (poll (attempts + 1)) = true := by
              apply hok (attempts + 1) (by omega)
              omega
            rcases hst : poll (attempts + 1) with e2 | st
            · rw [hst] at hcur
              simp [okNotRunning] at hcur
            · rw [hst] at hcur
              have hnr : ¬ (st.actual_status.getD "unknown" = "running") := by
                simpa [okNotRunning] using hcur
              have hok2 : ∀ k, attempts + 1 < k → k < (attempts + 1) + (j - 1) →
                  okNotRunning (poll k) = true := by
                intro k hk1 hk2
                exact hok k (by omega) (by omega)
              have he2 : poll ((attempts + 1) + (j - 1)) = .error e := by
                have : (attempts + 1) + (j - 1) = attempts + j := by omega
                rw [this]; exact he
              obtain ⟨x1, x2, x3, x4⟩ :=
                ih (j - 1) (attempts + 1) (by omega) (by omega) hok2 he2
              refine ⟨?_, ?_, ?_, ?_⟩
              · simpa [pollLoop, get_instance, hst, hnr] using x1
              · simpa [pollLoop, get_instance, hst, hnr] using x2
              · simp [pollLoop, get_instance, hst, hnr, countFetches,
                  List.countP_cons, List.countP_append] at x3 ⊢
                omega
              · simp [pollLoop, get_instance, hst, hnr, countSleeps,
                  List.countP_cons, List.countP_append] at x4 ⊢
                omega

/-- C4 counterexample: in a run where every status fetch answers
"provisioning" (the instance never becomes running), the workflow performs
20 status fetches and sleeps 20 times — not the 19 sleeps the claim
states: the loop body also sleeps after the 20th, final, unsuccessful
fetch. -/
theorem sleep_count_twenty_not_nineteen :
    countFetches (rent_machine oneOfferSearch (mockProvision okCreate555) neverRunningPoll).events = 20
    ∧ countSleeps (rent_machine oneOfferSearch (mockProvision okCreate555) neverRunningPoll).events = 20
    ∧ ¬ countSleeps (rent_machine oneOfferSearch (mockProvision okCreate555) neverRunningPoll).events = 19 := by
  exact ⟨rfl, rfl, by decide⟩

/-- C4 (amended): when the instance status never becomes "running" and
every fetch completes, Readiness Polling performs exactly `max_attempts`
(20) status fetches and sleeps exactly `max_attempts` (20) times — one
sleep per unsuccessful attempt, the last included — before giving up with
no exception; and for every poll oracle whatsoever it performs at most
`max_attempts` fetches and at most `max_attempts` sleeps. -/
theorem poll_budget_and_sleep_count (poll : Nat → Except PyErr InstStatus) (iid : PyVal)
    (h : ∀ k, 1 ≤ k → k ≤ max_attempts → okNotRunning (poll k) = true) :
    (pollLoop poll iid max_attempts 0 max_attempts).2.1 = false
    ∧ (pollLoop poll iid max_attempts 0 max_attempts).2.2 = none
    ∧ countFetches (pollLoop poll iid max_attempts 0 max_attempts).1 = max_attempts
    ∧ countSleeps (pollLoop poll iid max_attempts 0 max_attempts).1 = max_attempts
    ∧ ∀ (poll2 : Nat → Except PyErr InstStatus) (iid2 : PyVal),
        countFetches (pollLoop poll2 iid2 max_attempts 0 max_attempts).1 ≤ max_attempts
        ∧ countSleeps (pollLoop poll2 iid2 max_attempts 0 max_attempts).1 ≤ max_attempts := by
  obtain ⟨h1, h2, h3, h4⟩ :=
    pollLoop_never_running poll iid max_attempts max_attempts 0
      (fun k hk1 hk2 => h k (by omega) (by omega))
  exact ⟨h1, h2, h3, h4, fun poll2 iid2 => pollLoop_counts_le poll2 iid2 max_attempts max_attempts 0⟩

/-- Witness for the amended C4 theorem at the always-"provisioning" poll
oracle and instance id 555. -/
theorem poll_budget_and_sleep_count_witness :
    countFetches (pollLoop neverRunningPoll (.vnum 555) max_attempts 0 max_attempts).1 = max_attempts
    ∧ countSleeps (pollLoop neverRunningPoll (.vnum 555) max_attempts 0 max_attempts).1 = max_attempts := by
  have h := poll_budget_and_sleep_count neverRunningPoll (.vnum 555)
    (fun k hk1 hk2 => rfl)
  exact ⟨h.2.2.1, h.2.2.2.1⟩

/-- C5 counterexample: a single transient-looking read failure (a 503 from
the status endpoint on the very first poll) is NOT retried: the run
performs exactly one status fetch, never sleeps, and terminates through
the exception path carrying that error (the cleanup advisory for instance
555 is still printed). -/
theorem transient_failure_not_retried :
    (rent_machine oneOfferSearch (mockProvision okCreate555) failingPoll).err
      = some (.httpError "503 Service Unavailable")
    ∧ countFetches (rent_machine oneOfferSearch (mockProvision okCreate555) failingPoll).events = 1
    ∧ countSleeps (rent_machine oneOfferSearch (mockProvision okCreate555) failingPoll).events = 0
    ∧ advisoryMentions (.vnum 555)
        (rent_machine oneOfferSearch (mockProvision okCreate555) failingPoll).events := by
  exact ⟨rfl, rfl, rfl, by decide⟩

/-- C5 (amended): the polling loop draws no distinction between transient
and non-transient read failures: ANY failed status fetch — the first one
to fail, say the `j`-th of the budget — terminates the loop immediately
with that error after exactly `j` fetches and `j - 1` sleeps; no failed
read is ever retried.  (The error then reaches the `except` handler, which
reports the instance id — see the C1 theorem.) -/
theorem poll_read_failure_aborts (poll : Nat → Except PyErr InstStatus) (iid : PyVal)
    (e : PyErr) (j : Nat)
    (h1 : 1 ≤ j) (h2 : j ≤ max_attempts)
    (hok : ∀ k, 1 ≤ k → k < j → okNotRunning (poll k) = true)
    (he : poll j = .error e) :
    (pollLoop poll iid max_attempts 0 max_attempts).2.1 = false
    ∧ (pollLoop poll iid max_attempts 0 max_attempts).2.2 = some e
    ∧ countFetches (pollLoop poll iid max_attempts 0 max_attempts).1 = j
    ∧ countSleeps (pollLoop poll iid max_attempts 0 max_attempts).1 = j - 1 := by
  exact pollLoop_first_error poll iid max_attempts e max_attempts j 0 h1 h2
    (fun k hk1 hk2 => hok k (by omega) (by omega)) (by simpa using he)

/-- Witness for the amended C5 theorem: the all-failing poll oracle fails
on the first fetch, so the loop ends at once with the 503 error. -/
theorem poll_read_failure_aborts_witness :
    (pollLoop failingPoll (.vnum 555) max_attempts 0 max_attempts).2.2
      = some (.httpError "503 Service Unavailable")
    ∧ countFetches (pollLoop failingPoll (.vnum 555) max_attempts 0 max_attempts).1 = 1 := by
  have h := poll_read_failure_aborts failingPoll (.vnum 555)
    (.httpError "503 Service Unavailable") 1 (by decide) (by decide)
    (fun k hk1 hk2 => absurd (Nat.lt_of_lt_of_le hk2 hk1) (by omega)) rfl
  exact ⟨h.2.1, h.2.2.1⟩

/-- C1: once provisioning returns a (truthy) instance identifier, every
exit of the run reports it in the operator-facing cleanup guidance: the
step-7 manual-cleanup instructions on the success and timed-out paths, or
the `except`-handler advisory on any exception path — whatever the poll
oracle does. -/
theorem instance_id_reported_on_every_exit (sel : Offer) (rest : List Offer)
    (provision : Nat → List Ev × Except PyErr CreateResp)
    (poll : Nat → Except PyErr InstStatus)
    (pev : List Ev) (cres : CreateResp) (v : PyVal)
    (hprov : provision sel.id = (pev, .ok cres))
    (hnc : cres.new_contract = some v)
    (hv : pyTruthy v = true) :
    advisoryMentions v (rent_machine (.ok ⟨some (sel :: rest)⟩) provision poll).events := by
  unfold advisoryMentions
  rcases hpl : pollLoop poll v max_attempts 0 max_attempts with ⟨levs, isr, lerr⟩
  cases lerr with
  | some e =>
      refine Or.inr ?_
      simp [rent_machine, rentMachineBody, hprov, hnc, pyTruthyOpt, hv, hpl]
  | none =>
      refine Or.inl ?_
      cases isr
      · simp [rent_machine, rentMachineBody, hprov, hnc, pyTruthyOpt, hv, hpl]
      · simp [rent_machine, rentMachineBody, hprov, hnc, pyTruthyOpt, hv, hpl]

/-- Witness for the C1 theorem: provisioning answers 555 and the instance
never becomes ready; the timed-out run still reports 555. -/
theorem instance_id_reported_on_every_exit_witness :
    advisoryMentions (.vnum 555)
      (rent_machine (.ok ⟨some [⟨10, none, none, none⟩]⟩)
        (mockProvision okCreate555) neverRunningPoll).events :=
  instance_id_reported_on_every_exit ⟨10, none, none, none⟩ []
    (mockProvision okCreate555) neverRunningPoll
    [Ev.httpPut 10] ⟨some (.vnum 555), none⟩ (.vnum 555) rfl rfl rfl

/-- C3: on every non-empty offers list, Offer Selection is `offers[0]`:
the step-2 announcement names the id of the first offer, and the
provisioning request that follows is issued for that same first-offer id.
(As a Lean function of its inputs, the selection — and the whole run — is
deterministic and side-effect-free by construction.) -/
theorem selection_picks_first_offer (sel : Offer) (rest : List Offer)
    (provision : Nat → List Ev × Except PyErr CreateResp)
    (poll : Nat → Except PyErr InstStatus)
    (res : Except PyErr CreateResp) :
    Ev.print (.selectedMachine sel.id)
      ∈ (rent_machine (.ok ⟨some (sel :: rest)⟩) provision poll).events
    ∧ Ev.httpPut sel.id
      ∈ (rent_machine (.ok ⟨some (sel :: rest)⟩) (mockProvision res) poll).events := by
  constructor
  · apply mem_rent_machine_of_mem_body
    apply mem_body_of_nonempty_search
    left
    simp [headerEvs]
  · apply mem_rent_machine_of_mem_body
    apply mem_body_of_nonempty_search
    right
    simp [mockProvision]

/-- C6: when the provisioning request is rejected upstream (the PUT is
issued and the marketplace answers with an error), the run terminates with
that error carrying the upstream reason string verbatim, issues exactly
one provisioning request (no retry), records no instance identifier, and
its output contains no cleanup advisory naming an instance id (none was
obtained). -/
theorem provisioning_rejection_no_retry (sel : Offer) (rest : List Offer)
    (poll : Nat → Except PyErr InstStatus) (reason : String) :
    (rent_machine (.ok ⟨some (sel :: rest)⟩)
        (mockProvision (.error (.httpError reason))) poll).err
      = some (.httpError reason)
    ∧ Ev.print (.errorMsg (.httpError reason))
      ∈ (rent_machine (.ok ⟨some (sel :: rest)⟩)
          (mockProvision (.error (.httpError reason))) poll).events
    ∧ countPuts (rent_machine (.ok ⟨some (sel :: rest)⟩)
          (mockProvision (.error (.httpError reason))) poll).events = 1
    ∧ (rent_machine (.ok ⟨some (sel :: rest)⟩)
          (mockProvision (.error (.httpError reason))) poll).instance_id = none
    ∧ ∀ w : PyVal,
        Ev.print (.cleanupAdvisory w)
          ∉ (rent_machine (.ok ⟨some (sel :: rest)⟩)
              (mockProvision (.error (.httpError reason))) poll).events
        ∧ Ev.print (.manualCleanup w)
          ∉ (rent_machine (.ok ⟨some (sel :: rest)⟩)
              (mockProvision (.error (.httpError reason))) poll).events := by
  refine ⟨?_, ?_, ?_, ?_, ?_⟩
  · simp [rent_machine, rentMachineBody, mockProvision]
  · simp [rent_machine, rentMachineBody, mockProvision]
  · simp [rent_machine, rentMachineBody, mockProvision, countPuts,
      List.countP_cons, List.countP_append]
  · simp [rent_machine, rentMachineBody, mockProvision]
  · intro w
    constructor
    · simp [rent_machine, rentMachineBody, mockProvision]
    · simp [rent_machine, rentMachineBody, mockProvision]

/-- C10: whenever the provisioning response's `new_contract` is absent or
falsy (`None` or `0` — `instance_id = result.get('new_contract')` followed
by `if not instance_id`), the run treats provisioning as failed, raising
the failed-to-create exception built from the response's `error` field; the
error-path advisory names no instance identifier (the handler's
`if instance_id:` tests the same truthiness), although the falsy value
itself is exactly what the `instance_id` variable holds. -/
theorem falsy_new_contract_treated_as_failed (sel : Offer) (rest : List Offer)
    (poll : Nat → Except PyErr InstStatus) (cres : CreateResp)
    (hfalsy : pyTruthyOpt cres.new_contract = false) :
    (rent_machine (.ok ⟨some (sel :: rest)⟩) (mockProvision (.ok cres)) poll).err
      = some (.exception ("Failed to create instance: " ++ cres.error.getD "Unknown error"))
    ∧ (rent_machine (.ok ⟨some (sel :: rest)⟩) (mockProvision (.ok cres)) poll).instance_id
      = cres.new_contract
    ∧ ∀ w : PyVal,
        Ev.print (.cleanupAdvisory w)
          ∉ (rent_machine (.ok ⟨some (sel :: rest)⟩) (mockProvision (.ok cres)) poll).events
        ∧ Ev.print (.manualCleanup w)
          ∉ (rent_machine (.ok ⟨some (sel :: rest)⟩) (mockProvision (.ok cres)) poll).events
        ∧ Ev.print (.instanceCreated w)
          ∉ (rent_machine (.ok ⟨some (sel :: rest)⟩) (mockProvision (.ok cres)) poll).events := by
  rcases hnc : cres.new_contract with _ | v
  · rw [hnc] at hfalsy
    refine ⟨?_, ?_, fun w => ⟨?_, ?_, ?_⟩⟩ <;>
      simp [rent_machine, rentMachineBody, mockProvision, hnc, pyTruthyOpt]
  · rw [hnc] at hfalsy
    have hv : pyTruthy v = false := by simpa [pyTruthyOpt] using hfalsy
    refine ⟨?_, ?_, fun w => ⟨?_, ?_, ?_⟩⟩ <;>
      simp [rent_machine, rentMachineBody, mockProvision, hnc, pyTruthyOpt, hv]

/-- Witness for the C10 theorem: `new_contract` present but `0`, with an
upstream `error` string; the run fails with that reason. -/
theorem falsy_new_contract_treated_as_failed_witness :
    (rent_machine (.ok ⟨some [⟨10, none, none, none⟩]⟩)
        (mockProvision (.ok ⟨some (.vnum 0), some "insufficient credit"⟩)) neverRunningPoll).err
      = some (.exception ("Failed to create instance: "
          ++ (CreateResp.mk (some (.vnum 0)) (some "insufficient credit")).error.getD "Unknown error")) :=
  (falsy_new_contract_treated_as_failed ⟨10, none, none, none⟩ [] neverRunningPoll
    ⟨some (.vnum 0), some "insufficient credit"⟩ rfl).1

/-- C8 counterexample: a failing run (empty search) after which the
process still exits with status 0 — the `except` handler swallows the
exception and `asyncio.run` returns normally, so no failure is reflected
in the exit status, contrary to the claimed non-zero exit. -/
theorem exit_zero_on_failure_counterexample :
    (scriptMain (.ok ⟨some []⟩) (mockProvision okCreate555) neverRunningPoll).1 = 0
    ∧ (scriptMain (.ok ⟨some []⟩) (mockProvision okCreate555) neverRunningPoll).2.err
      = some (.exception "No suitable machines found matching criteria") :=
  ⟨rfl, rfl⟩

/-- C8 (amended): the process exits with success status 0 on EVERY run —
failure outcomes included — because the top-level handler catches every
exception of the body, so no unhandled fault ever reaches the caller; a
failing run prints the error message (and, per the C1 theorem, the cleanup
advisory when an instance id is known) before the normal exit. -/
theorem process_always_exits_zero (searchResult : Except PyErr SearchResp)
    (provision : Nat → List Ev × Except PyErr CreateResp)
    (poll : Nat → Except PyErr InstStatus) (e : PyErr)
    (h : (rent_machine searchResult provision poll).err = some e) :
    (∀ (sr2 : Except PyErr SearchResp)
       (prov2 : Nat → List Ev × Except PyErr CreateResp)
       (poll2 : Nat → Except PyErr InstStatus),
        (scriptMain sr2 prov2 poll2).1 = 0)
    ∧ Ev.print (.errorMsg e) ∈ (scriptMain searchResult provision poll).2.events := by
  refine ⟨fun _ _ _ => rfl, ?_⟩
  rcases hb : rentMachineBody searchResult provision poll with ⟨evs, iid, err⟩
  cases err with
  | none => simp [rent_machine, hb] at h
  | some e2 =>
      cases iid with
      | none =>
          have he2 : e2 = e := by simpa [rent_machine, hb] using h
          subst he2
          simp [scriptMain, rent_machine, hb]
      | some v =>
          by_cases hv : pyTruthy v
          · have he2 : e2 = e := by simpa [rent_machine, hb, hv] using h
            subst he2
            simp [scriptMain, rent_machine, hb, hv]
          · have he2 : e2 = e := by simpa [rent_machine, hb, hv] using h
            subst he2
            simp [scriptMain, rent_machine, hb, hv]

/-- Witness for the amended C8 theorem at the empty-search run. -/
theorem process_always_exits_zero_witness :
    (scriptMain (.ok ⟨some []⟩) (mockProvision okCreate555) failingPoll).1 = 0
    ∧ Ev.print (.errorMsg (.exception "No suitable machines found matching criteria"))
      ∈ (scriptMain (.ok ⟨some []⟩) (mockProvision okCreate555) failingPoll).2.events :=
  ⟨(process_always_exits_zero (.ok ⟨some []⟩) (mockProvision okCreate555) failingPoll
      (.exception "No suitable machines found matching criteria") rfl).1
      (.ok ⟨some []⟩) (mockProvision okCreate555) failingPoll,
   (process_always_exits_zero (.ok ⟨some []⟩) (mockProvision okCreate555) failingPoll
      (.exception "No suitable machines found matching criteria") rfl).2⟩
